import Mathlib

/-!
# Verification of `main.py` (telegram-bot-firm)

A shallow embedding of the single source file `src/main.py`: a Telegram bot
that relays text messages to a generative-AI client and answers a liveness
HTTP endpoint.  External collaborators (the Telegram transport, the AI
client, the environment) are modelled as oracles; each handler is embedded
as a pure function from its inbound event and the oracles to the trace of
observable actions it performs (log lines, typing-indicator calls, AI
calls, send attempts) together with the exception, if any, that propagates
out of the handler.
-/

/-- A Python exception, abstracted as the string `str(e)`. -/
structure PyErr where
  msg : String
deriving DecidableEq, Repr

/-- Result of a fallible Python call: normal return, or a raised exception. -/
inductive PyResult (α : Type) where
  | ok (val : α)
  | error (e : PyErr)
deriving DecidableEq, Repr

/-- An outbound chat message as handed to `reply_text`: the body together
with the optional `parse_mode` format hint. -/
structure Reply where
  body : String
  parseMode : Option String
deriving DecidableEq, Repr

/-- One observable action of a handler:
a `logger.info`/`logger.error` line, the `send_chat_action` typing call
(with the chat it targets and its outcome), a `generate_content` call
(with the prompt and its outcome), or a `reply_text` attempt (with its
outcome). -/
inductive BotAction where
  | logInfo (text : String)
  | logError (text : String)
  | typingCall (chatId : Int) (result : PyResult Unit)
  | genCall (prompt : String) (result : PyResult String)
  | sendAttempt (r : Reply) (result : PyResult Unit)
deriving DecidableEq, Repr

/-- The external collaborators a handler touches, as oracles fixing the
outcome of each outbound call:
`gen` is `self.model.generate_content(prompt).text` (success text or raised
exception), `sendChatAction` the outcome of the typing-indicator call, and
`replySend` the outcome of `update.message.reply_text(body, parse_mode)`. -/
structure Oracles where
  gen : String → PyResult String
  sendChatAction : PyResult Unit
  replySend : String → Option String → PyResult Unit

/-- The fields of an inbound Telegram update that the handlers read:
`update.message.text`, `update.effective_user.first_name`,
`update.effective_chat.id`. -/
structure Update where
  messageText : String
  firstName : String
  chatId : Int

/-- Replies actually delivered: `sendAttempt` actions whose call returned. -/
def replyOfSent : BotAction → Option Reply
  | .sendAttempt r (.ok _) => some r
  | _ => none

def sentReplies (tr : List BotAction) : List Reply :=
  tr.filterMap replyOfSent

/-- Replies handed to the transport, whether or not the call raised. -/
def replyOfAttempt : BotAction → Option Reply
  | .sendAttempt r _ => some r
  | _ => none

def attemptedReplies (tr : List BotAction) : List Reply :=
  tr.filterMap replyOfAttempt

/-- Prompts for which the AI adapter was invoked. -/
def promptOfGen : BotAction → Option String
  | .genCall p _ => some p
  | _ => none

def genCalls (tr : List BotAction) : List String :=
  tr.filterMap promptOfGen

/-- Texts of `logger.error` lines in a trace. -/
def textOfErrorLog : BotAction → Option String
  | .logError t => some t
  | _ => none

def errorLogs (tr : List BotAction) : List String :=
  tr.filterMap textOfErrorLog

/-- Texts of `logger.info` lines in a trace. -/
def textOfInfoLog : BotAction → Option String
  | .logInfo t => some t
  | _ => none

def infoLogs (tr : List BotAction) : List String :=
  tr.filterMap textOfInfoLog

/-- `sub` occurs as a contiguous substring of `s`. -/
def containsStr (sub s : String) : Prop :=
  ∃ pre post, s = pre ++ sub ++ post

/-! ## Fixed message strings of `main.py` (lines 65-73, 79-89, 113-116) -/

/-- The welcome message of `start_command` (implicit literal concatenation
in the Python source yields one string). -/
def welcome_message : String :=
  "🤖 Hello! I\x27m your AI assistant powered by The Firm Team.\n\n" ++
  "I can help you with:\n" ++
  "• Answering questions\n" ++
  "• Creative writing\n" ++
  "• Problem solving\n" ++
  "• General conversation\n\n" ++
  "Just send me any message and I\x27ll respond using AI!"

/-- The help message of `help_command`. -/
def help_text : String :=
  "🆘 **How to use this bot:**\n\n" ++
  "/start - Start the bot\n" ++
  "/help - Show this help message\n\n" ++
  "Simply send me any text message and I\x27ll respond using AI!\n\n" ++
  "Examples:\n" ++
  "• Ask me questions: \x27What is quantum physics?\x27\n" ++
  "• Creative tasks: \x27Write a short story about space\x27\n" ++
  "• Problem solving: \x27Help me debug this code\x27\n" ++
  "• General chat: \x27How are you today?\x27"

/-- The fixed apology sent from the `except` branch of `handle_message`. -/
def error_message : String :=
  "🚫 Sorry, I encountered an error while processing your message. " ++
  "Please try again in a moment."

/-! ## Conversation handlers (`TelegramBot`, lines 63-121) -/

/-- `TelegramBot.start_command` (lines 63-75): `reply_text(welcome_message)`
then `logger.info(f"Started conversation with user {first_name}")`.
A raised send propagates; the log line follows the successful send. -/
def start_command (u : Update) (o : Oracles) : List BotAction × Option PyErr :=
  match o.replySend welcome_message none with
  | .error e => ([.sendAttempt ⟨welcome_message, none⟩ (.error e)], some e)
  | .ok _ =>
      ([.sendAttempt ⟨welcome_message, none⟩ (.ok ()),
        .logInfo ("Started conversation with user " ++ u.firstName)], none)

/-- `TelegramBot.help_command` (lines 77-90):
`reply_text(help_text, parse_mode=\x27Markdown\x27)`. -/
def help_command (u : Update) (o : Oracles) : List BotAction × Option PyErr :=
  match o.replySend help_text (some "Markdown") with
  | .error e => ([.sendAttempt ⟨help_text, some "Markdown"⟩ (.error e)], some e)
  | .ok _ => ([.sendAttempt ⟨help_text, some "Markdown"⟩ (.ok ())], none)

/-- `TelegramBot.handle_message` (lines 92-117), step for step:
log the received message (50-character preview); call `send_chat_action`
(outside the `try`: a raised typing call propagates); inside the `try`:
`generate_content` + `.text`, `reply_text(ai_response)`, success log;
in the `except`: `logger.error(f"Error generating AI response: {str(e)}")`
then `reply_text(error_message)` (which may itself raise and propagate). -/
def handle_message (u : Update) (o : Oracles) : List BotAction × Option PyErr :=
  let recvLog : BotAction :=
    .logInfo ("Received message from " ++ u.firstName ++ ": " ++
      u.messageText.take 50 ++ "...")
  match o.sendChatAction with
  | .error e => ([recvLog, .typingCall u.chatId (.error e)], some e)
  | .ok _ =>
    match o.gen u.messageText with
    | .ok t =>
      match o.replySend t none with
      | .ok _ =>
          ([recvLog, .typingCall u.chatId (.ok ()),
            .genCall u.messageText (.ok t),
            .sendAttempt ⟨t, none⟩ (.ok ()),
            .logInfo ("Sent AI response to " ++ u.firstName)], none)
      | .error e =>
        match o.replySend error_message none with
        | .ok _ =>
            ([recvLog, .typingCall u.chatId (.ok ()),
              .genCall u.messageText (.ok t),
              .sendAttempt ⟨t, none⟩ (.error e),
              .logError ("Error generating AI response: " ++ e.msg),
              .sendAttempt ⟨error_message, none⟩ (.ok ())], none)
        | .error e2 =>
            ([recvLog, .typingCall u.chatId (.ok ()),
              .genCall u.messageText (.ok t),
              .sendAttempt ⟨t, none⟩ (.error e),
              .logError ("Error generating AI response: " ++ e.msg),
              .sendAttempt ⟨error_message, none⟩ (.error e2)], some e2)
    | .error e =>
      match o.replySend error_message none with
      | .ok _ =>
          ([recvLog, .typingCall u.chatId (.ok ()),
            .genCall u.messageText (.error e),
            .logError ("Error generating AI response: " ++ e.msg),
            .sendAttempt ⟨error_message, none⟩ (.ok ())], none)
      | .error e2 =>
          ([recvLog, .typingCall u.chatId (.ok ()),
            .genCall u.messageText (.error e),
            .logError ("Error generating AI response: " ++ e.msg),
            .sendAttempt ⟨error_message, none⟩ (.error e2)], some e2)

/-- `TelegramBot.error_handler` (lines 119-121): log the update and the
error; nothing else — no send, no AI call, no re-raise. -/
def error_handler (updateRepr errorRepr : String) : List BotAction × Option PyErr :=
  ([.logError ("Update " ++ updateRepr ++ " caused error " ++ errorRepr)], none)

/-! ## Health responder (`HealthHandler` / `run_health_server`, lines 41-55) -/

/-- An HTTP response as assembled by `do_GET`. -/
structure HttpResponse where
  status : Nat
  headers : List (String × String)
  body : String
deriving DecidableEq, Repr

/-- ASCII lower-casing of a character. -/
def asciiLower (c : Char) : Char :=
  if 65 ≤ c.toNat ∧ c.toNat ≤ 90 then Char.ofNat (c.toNat + 32) else c

/-- ASCII lower-casing of a string. -/
def lowerStr (s : String) : String := String.mk (s.data.map asciiLower)

/-- Case-insensitive header lookup (HTTP header names are case-insensitive). -/
def getHeader (r : HttpResponse) (name : String) : Option String :=
  (r.headers.find? fun p => lowerStr p.1 = lowerStr name).map Prod.snd

/-- `HealthHandler.log_message` (lines 48-49): overridden to `pass`, so a
request produces no access-log lines. -/
def HealthHandler.log_message (fmt : String) (args : List String) : List String :=
  []

/-- `HealthHandler.do_GET` (lines 42-46): for any path, status 200, header
`Content-type: text/plain`, body `Telegram Bot is running!`; the access-log
output goes through the suppressed `log_message`. -/
def HealthHandler.do_GET (path : String) : HttpResponse × List String :=
  ({ status := 200
     headers := [("Content-type", "text/plain")]
     body := "Telegram Bot is running!" },
   HealthHandler.log_message "GET" [path])

/-- Python `int(s)` restricted to the usual decimal forms: surrounding
whitespace stripped, an optional sign, then decimal digits; `none` models
a raised `ValueError`. -/
def pythonInt (s : String) : Option Int :=
  let cs :=
    ((s.data.dropWhile Char.isWhitespace).reverse.dropWhile
      Char.isWhitespace).reverse
  match cs with
  | [] => none
  | c :: rest =>
    let signed : Bool × List Char :=
      if c = '-' then (true, rest)
      else if c = '+' then (false, rest) else (false, c :: rest)
    if signed.2 = [] then none
    else if signed.2.all Char.isDigit then
      let n : Nat := signed.2.foldl (fun acc d => acc * 10 + (d.toNat - 48)) 0
      some (if signed.1 then -(n : Int) else (n : Int))
    else none

/-- `run_health_server` (lines 51-55): the bind address of the
`HTTPServer`, computed from `int(os.environ.get(\x27PORT\x27, 10000))`;
`none` models the thread dying on an unparsable `PORT` value. -/
def run_health_server (env : String → Option String) : Option (String × Int) :=
  match env "PORT" with
  | none => some ("0.0.0.0", 10000)
  | some s => (pythonInt s).map fun n => ("0.0.0.0", n)

/-! ## Module-level startup (lines 27-39) and `main` (lines 123-146) -/

/-- One observable step of process startup. -/
inductive StartupAction where
  | logError (text : String)
  | logInfo (text : String)
  | configureGenai (key : String)
  | startHealthThread
  | constructBot
  | registerHandlers
  | runPolling
deriving DecidableEq, Repr

/-- Python truthiness of an `os.getenv` result: `None` and the empty
string are falsy, every other string is truthy. -/
def pyTruthy : Option String → Bool
  | none => false
  | some s => !s.isEmpty

/-- Module-level code (lines 27-39) followed by `main()` (lines 123-146):
read the two secrets, exit 1 with an error log if either is falsy
(`if not TELEGRAM_BOT_TOKEN` / `if not GEMINI_API_KEY`), otherwise
configure the AI client, start the health thread, construct the bot,
register handlers and poll.  The second component is the exit code
(`some 1` for the fatal path, `none` while the process keeps running). -/
def startup (env : String → Option String) : List StartupAction × Option Nat :=
  if pyTruthy (env "TELEGRAM_BOT_TOKEN") = false then
    ([.logError "TELEGRAM_BOT_TOKEN not found in environment variables"], some 1)
  else if pyTruthy (env "GEMINI_API_KEY") = false then
    ([.logError "GEMINI_API_KEY not found in environment variables"], some 1)
  else
    ([.configureGenai ((env "GEMINI_API_KEY").getD ""),
      .logInfo "Starting Telegram Bot with Gemini AI...",
      .startHealthThread, .constructBot, .registerHandlers, .runPolling],
     none)

/-- An environment in which both secrets are present (set) but the bot
token is the empty string. -/
def envEmptyToken : String → Option String := fun n =>
  if n = "TELEGRAM_BOT_TOKEN" then some ""
  else if n = "GEMINI_API_KEY" then some "apikey" else none

/-! ## Claims -/

/-- Claim C1: for every inbound plain-text event where the AI adapter's
generate call returns text `T` (the typing call and the transport delivery
of the reply returning normally), the handler sends exactly one reply,
whose body equals `T` character for character, with no parse mode (no
formatting) applied, and the handler raises nothing. -/
theorem claim_C1_ai_reply_verbatim (u : Update) (o : Oracles) (T : String)
    (htyping : o.sendChatAction = .ok ())
    (hgen : o.gen u.messageText = .ok T)
    (hsend : o.replySend T none = .ok ()) :
    sentReplies (handle_message u o).1 = [⟨T, none⟩] ∧
    (handle_message u o).2 = none := by
  simp [handle_message, htyping, hgen, hsend, sentReplies, replyOfSent]

theorem claim_C1_witness :
    sentReplies (handle_message ⟨"hi", "Bob", 5⟩
        ⟨fun _ => .ok "pong", .ok (), fun _ _ => .ok ()⟩).1 = [⟨"pong", none⟩] ∧
    (handle_message ⟨"hi", "Bob", 5⟩
        ⟨fun _ => .ok "pong", .ok (), fun _ _ => .ok ()⟩).2 = none :=
  claim_C1_ai_reply_verbatim ⟨"hi", "Bob", 5⟩
    ⟨fun _ => .ok "pong", .ok (), fun _ _ => .ok ()⟩ "pong" rfl rfl rfl

/-- Claim C2: for every inbound plain-text event where the AI adapter's
generate call raises an exception `e` (the typing call and the apology
delivery returning normally), the handler sends exactly the fixed apology
string, and logs one error line that contains `str(e)`. -/
theorem claim_C2_ai_failure_apology (u : Update) (o : Oracles) (e : PyErr)
    (htyping : o.sendChatAction = .ok ())
    (hgen : o.gen u.messageText = .error e)
    (hsend : o.replySend error_message none = .ok ()) :
    sentReplies (handle_message u o).1 = [⟨error_message, none⟩] ∧
    errorLogs (handle_message u o).1 =
      ["Error generating AI response: " ++ e.msg] ∧
    containsStr e.msg ("Error generating AI response: " ++ e.msg) := by
  refine ⟨?_, ?_, ⟨"Error generating AI response: ", "", by simp⟩⟩ <;>
    simp only [handle_message, htyping, hgen, hsend] <;> rfl

theorem claim_C2_witness :
    sentReplies (handle_message ⟨"hi", "Bob", 5⟩
        ⟨fun _ => .error ⟨"boom"⟩, .ok (), fun _ _ => .ok ()⟩).1 =
      [⟨error_message, none⟩] ∧
    errorLogs (handle_message ⟨"hi", "Bob", 5⟩
        ⟨fun _ => .error ⟨"boom"⟩, .ok (), fun _ _ => .ok ()⟩).1 =
      ["Error generating AI response: " ++ "boom"] ∧
    containsStr "boom" ("Error generating AI response: " ++ "boom") :=
  claim_C2_ai_failure_apology ⟨"hi", "Bob", 5⟩
    ⟨fun _ => .error ⟨"boom"⟩, .ok (), fun _ _ => .ok ()⟩ ⟨"boom"⟩ rfl rfl rfl

/-- Claim C5: for every GET request on any path, the health responder
answers status 200, with a `Content-Type` header (case-insensitive) equal
to `text/plain`, body exactly `Telegram Bot is running!`, and emits no
per-request access-log line; the response depends on nothing but the
request. -/
theorem claim_C5_health_get (path : String) :
    (HealthHandler.do_GET path).1.status = 200 ∧
    getHeader (HealthHandler.do_GET path).1 "Content-Type" = some "text/plain" ∧
    (HealthHandler.do_GET path).1.body = "Telegram Bot is running!" ∧
    (HealthHandler.do_GET path).2 = [] :=
  ⟨rfl, rfl, rfl, rfl⟩

/-- Claim C6: for every inbound `/start` event (the transport delivery
returning normally), the reply sent equals the fixed welcome string, and
one info log line containing the sender's first name is emitted. -/
theorem claim_C6_start_welcome (u : Update) (o : Oracles)
    (hsend : o.replySend welcome_message none = .ok ()) :
    sentReplies (start_command u o).1 = [⟨welcome_message, none⟩] ∧
    infoLogs (start_command u o).1 =
      ["Started conversation with user " ++ u.firstName] ∧
    containsStr u.firstName ("Started conversation with user " ++ u.firstName) := by
  refine ⟨?_, ?_, ⟨"Started conversation with user ", "", by simp⟩⟩ <;>
    simp only [start_command, hsend] <;> rfl

theorem claim_C6_witness :
    sentReplies (start_command ⟨"/start", "Alice", 9⟩
        ⟨fun _ => .ok "x", .ok (), fun _ _ => .ok ()⟩).1 =
      [⟨welcome_message, none⟩] ∧
    infoLogs (start_command ⟨"/start", "Alice", 9⟩
        ⟨fun _ => .ok "x", .ok (), fun _ _ => .ok ()⟩).1 =
      ["Started conversation with user " ++ "Alice"] ∧
    containsStr "Alice" ("Started conversation with user " ++ "Alice") :=
  claim_C6_start_welcome ⟨"/start", "Alice", 9⟩
    ⟨fun _ => .ok "x", .ok (), fun _ _ => .ok ()⟩ rfl

/-- Claim C7: for every inbound `/help` event (the transport delivery
returning normally), the reply sent equals the fixed help string with
Markdown formatting flagged, and no AI adapter call is made. -/
theorem claim_C7_help_fixed (u : Update) (o : Oracles)
    (hsend : o.replySend help_text (some "Markdown") = .ok ()) :
    sentReplies (help_command u o).1 = [⟨help_text, some "Markdown"⟩] ∧
    genCalls (help_command u o).1 = [] := by
  simp only [help_command, hsend]
  exact ⟨rfl, rfl⟩

theorem claim_C7_witness :
    sentReplies (help_command ⟨"/help", "Alice", 9⟩
        ⟨fun _ => .ok "x", .ok (), fun _ _ => .ok ()⟩).1 =
      [⟨help_text, some "Markdown"⟩] ∧
    genCalls (help_command ⟨"/help", "Alice", 9⟩
        ⟨fun _ => .ok "x", .ok (), fun _ _ => .ok ()⟩).1 = [] :=
  claim_C7_help_fixed ⟨"/help", "Alice", 9⟩
    ⟨fun _ => .ok "x", .ok (), fun _ _ => .ok ()⟩ rfl

/-- Claim C8: the global error handler logs the update together with the
error and does nothing else: its whole trace is that one error-log line,
it sends nothing, attempts no send, calls the AI adapter never, and
raises (re-raises) nothing. -/
theorem claim_C8_error_handler_logs_only (updateRepr errorRepr : String) :
    error_handler updateRepr errorRepr =
      ([.logError ("Update " ++ updateRepr ++ " caused error " ++ errorRepr)],
       none) ∧
    sentReplies (error_handler updateRepr errorRepr).1 = [] ∧
    attemptedReplies (error_handler updateRepr errorRepr).1 = [] ∧
    genCalls (error_handler updateRepr errorRepr).1 = [] :=
  ⟨rfl, rfl, rfl, rfl⟩

/-- Claim C3, counterexample: an environment in which both secrets are
present (`TELEGRAM_BOT_TOKEN` set, to the empty string, and
`GEMINI_API_KEY` set to a nonempty value) still takes the fatal exit
path, because the source tests Python truthiness
(`if not TELEGRAM_BOT_TOKEN`), not presence in the environment. -/
theorem claim_C3_counterexample :
    (envEmptyToken "TELEGRAM_BOT_TOKEN").isSome = true ∧
    (envEmptyToken "GEMINI_API_KEY").isSome = true ∧
    (startup envEmptyToken).2 = some 1 ∧
    (startup envEmptyToken).1 =
      [.logError "TELEGRAM_BOT_TOKEN not found in environment variables"] :=
  ⟨rfl, rfl, rfl, rfl⟩

/-- Claim C3 (amended): if either secret is absent from the environment,
startup logs one error line and exits with code 1, and its whole trace is
that log line — so the AI client is never configured, the health thread
never started, no bot constructed; the exit path is not taken when both
secrets are present *with non-empty values* (Python truthiness is what the
code tests). -/
theorem claim_C3_amended_secret_gate (env : String → Option String) :
    ((env "TELEGRAM_BOT_TOKEN" = none ∨ env "GEMINI_API_KEY" = none) →
      (startup env).2 = some 1 ∧
      ((startup env).1 =
          [.logError "TELEGRAM_BOT_TOKEN not found in environment variables"] ∨
       (startup env).1 =
          [.logError "GEMINI_API_KEY not found in environment variables"])) ∧
    (pyTruthy (env "TELEGRAM_BOT_TOKEN") = true →
      pyTruthy (env "GEMINI_API_KEY") = true →
      (startup env).2 = none) := by
  constructor
  · rintro (h | h)
    · simp [startup, h, pyTruthy]
    · cases hT : env "TELEGRAM_BOT_TOKEN" with
      | none => simp [startup, hT, pyTruthy]
      | some s =>
        by_cases hs : s.isEmpty
        · simp [startup, hT, h, pyTruthy, hs]
        · simp [startup, hT, h, pyTruthy, hs]
  · intro h1 h2
    simp [startup, h1, h2]

theorem claim_C3_witness :
    (startup (fun _ => none)).2 = some 1 ∧
    (startup (fun _ => some "secret")).2 = none :=
  ⟨((claim_C3_amended_secret_gate (fun _ => none)).1 (Or.inl rfl)).1,
   (claim_C3_amended_secret_gate (fun _ => some "secret")).2 rfl rfl⟩

/-- Claim C4, counterexample: a plain-text event whose typing-indicator
call raises is aborted — `send_chat_action` is outside the `try`, so the
exception propagates, the AI adapter is never called and no reply is even
attempted.  The failure of the typing call is thus not ignored, contrary
to the claim. -/
theorem claim_C4_counterexample :
    genCalls (handle_message ⟨"hi", "Bob", 7⟩
        ⟨fun _ => .ok "pong", .error ⟨"netdown"⟩, fun _ _ => .ok ()⟩).1 = [] ∧
    attemptedReplies (handle_message ⟨"hi", "Bob", 7⟩
        ⟨fun _ => .ok "pong", .error ⟨"netdown"⟩, fun _ _ => .ok ()⟩).1 = [] ∧
    (handle_message ⟨"hi", "Bob", 7⟩
        ⟨fun _ => .ok "pong", .error ⟨"netdown"⟩, fun _ _ => .ok ()⟩).2 =
      some ⟨"netdown"⟩ :=
  ⟨rfl, rfl, rfl⟩

/-- Claim C4 (amended): for every inbound plain-text event the typing
indicator is emitted to the originating chat before the AI adapter is
called (its returned value is ignored when the call returns); but the
emission is not best-effort: if the typing call raises, the exception
propagates out of the handler, which then neither calls the AI adapter
nor attempts any reply. -/
theorem claim_C4_amended_typing_first (u : Update) (o : Oracles) :
    (o.sendChatAction = .ok () →
      (handle_message u o).1.get? 1 = some (.typingCall u.chatId (.ok ())) ∧
      (handle_message u o).1.get? 2 =
        some (.genCall u.messageText (o.gen u.messageText))) ∧
    (∀ e, o.sendChatAction = .error e →
      genCalls (handle_message u o).1 = [] ∧
      attemptedReplies (handle_message u o).1 = [] ∧
      (handle_message u o).2 = some e) := by
  constructor
  · intro h
    cases hg : o.gen u.messageText with
    | ok t =>
      cases hs : o.replySend t none with
      | ok v => simp [handle_message, h, hg, hs]
      | error e =>
        cases hs2 : o.replySend error_message none with
        | ok v => simp [handle_message, h, hg, hs, hs2]
        | error e2 => simp [handle_message, h, hg, hs, hs2]
    | error e =>
      cases hs2 : o.replySend error_message none with
      | ok v => simp [handle_message, h, hg, hs2]
      | error e2 => simp [handle_message, h, hg, hs2]
  · intro e he
    simp [handle_message, he, genCalls, promptOfGen, attemptedReplies,
      replyOfAttempt]

theorem claim_C4_witness :
    (handle_message ⟨"hi", "Ann", 3⟩
        ⟨fun _ => .ok "pong", .ok (), fun _ _ => .ok ()⟩).1.get? 1 =
      some (.typingCall 3 (.ok ())) ∧
    genCalls (handle_message ⟨"hi", "Ann", 3⟩
        ⟨fun _ => .ok "pong", .error ⟨"boom"⟩, fun _ _ => .ok ()⟩).1 = [] :=
  ⟨((claim_C4_amended_typing_first ⟨"hi", "Ann", 3⟩
      ⟨fun _ => .ok "pong", .ok (), fun _ _ => .ok ()⟩).1 rfl).1,
   ((claim_C4_amended_typing_first ⟨"hi", "Ann", 3⟩
      ⟨fun _ => .ok "pong", .error ⟨"boom"⟩, fun _ _ => .ok ()⟩).2
      ⟨"boom"⟩ rfl).1⟩

/-- Claim C9: the health responder binds all interfaces (`0.0.0.0`); the
port is the value of the `PORT` environment variable when it is set (to a
string the `int` conversion accepts), and 10000 when it is unset. -/
theorem claim_C9_health_port (env : String → Option String) (s : String)
    (n : Int) :
    (env "PORT" = some s → pythonInt s = some n →
      run_health_server env = some ("0.0.0.0", n)) ∧
    (env "PORT" = none → run_health_server env = some ("0.0.0.0", 10000)) := by
  constructor
  · intro h1 h2
    simp [run_health_server, h1, h2]
  · intro h
    simp [run_health_server, h]

theorem claim_C9_witness :
    run_health_server (fun v => if v = "PORT" then some "8080" else none) =
      some ("0.0.0.0", 8080) ∧
    run_health_server (fun _ => none) = some ("0.0.0.0", 10000) :=
  ⟨(claim_C9_health_port (fun v => if v = "PORT" then some "8080" else none)
      "8080" 8080).1 rfl rfl,
   (claim_C9_health_port (fun _ => none) "" 0).2 rfl⟩

/-- Claim C10: the success-path reply send sits inside the `try`: if the
AI call returns `T` but `reply_text(T)` raises `e`, the handler catches
the exception, logs one error line containing `str(e)`, and attempts the
fixed apology reply as its second send attempt; nothing propagates when
the apology delivery returns normally. -/
theorem claim_C10_send_in_try (u : Update) (o : Oracles) (T : String)
    (e : PyErr)
    (htyping : o.sendChatAction = .ok ())
    (hgen : o.gen u.messageText = .ok T)
    (hsend : o.replySend T none = .error e) :
    errorLogs (handle_message u o).1 =
      ["Error generating AI response: " ++ e.msg] ∧
    (attemptedReplies (handle_message u o).1).get? 1 =
      some ⟨error_message, none⟩ ∧
    (o.replySend error_message none = .ok () →
      (handle_message u o).2 = none) := by
  cases hs2 : o.replySend error_message none with
  | ok v =>
      refine ⟨?_, ?_, ?_⟩ <;>
        simp [handle_message, htyping, hgen, hsend, hs2, errorLogs,
          textOfErrorLog, attemptedReplies, replyOfAttempt]
  | error e2 =>
      refine ⟨?_, ?_, ?_⟩ <;>
        simp [handle_message, htyping, hgen, hsend, hs2, errorLogs,
          textOfErrorLog, attemptedReplies, replyOfAttempt]

theorem claim_C10_witness :
    errorLogs (handle_message ⟨"hi", "Bob", 5⟩
        ⟨fun _ => .ok "pong", .ok (),
         fun b _ => if b = "pong" then .error ⟨"sendfail"⟩ else .ok ()⟩).1 =
      ["Error generating AI response: " ++ "sendfail"] ∧
    (handle_message ⟨"hi", "Bob", 5⟩
        ⟨fun _ => .ok "pong", .ok (),
         fun b _ => if b = "pong" then .error ⟨"sendfail"⟩ else .ok ()⟩).2 =
      none :=
  ⟨(claim_C10_send_in_try ⟨"hi", "Bob", 5⟩
      ⟨fun _ => .ok "pong", .ok (),
       fun b _ => if b = "pong" then .error ⟨"sendfail"⟩ else .ok ()⟩
      "pong" ⟨"sendfail"⟩ rfl rfl rfl).1,
   (claim_C10_send_in_try ⟨"hi", "Bob", 5⟩
      ⟨fun _ => .ok "pong", .ok (),
       fun b _ => if b = "pong" then .error ⟨"sendfail"⟩ else .ok ()⟩
      "pong" ⟨"sendfail"⟩ rfl rfl rfl).2.2 rfl⟩
